import Mathlib

/-!
Shallow embedding of `src/client.py` of the `universal_api_sql_sdk`
repository: a client that pre-validates a SQL query against a local
authorization server and, on success, forwards it to a SQL execution
server.  The network is modelled as environment-chosen results of the
two `requests.post` calls, and Python exceptions as explicit error
values.
-/

namespace UniversalApiSqlSdk

/-- A JSON document, the payload format of both services
(`requests.post(json=...)` / `response.json()`). -/
inductive Json where
  | null : Json
  | bool (b : Bool) : Json
  | num (n : Int) : Json
  | str (s : String) : Json
  | arr (elems : List Json) : Json
  | obj (fields : List (String × Json)) : Json


/-- Modelled from the spec: `SQLQuery` lives in `src/models.py`, which is
not under `src/`.  Per the spec a Query is an immutable value supporting a
stable serialization (`query.dict()`) to a structured mapping of field
name to value.  We take that mapping as the query's content. -/
structure SQLQuery where
  dict : List (String × Json)


/-- Modelled from the spec: `AuthResponse` lives in `src/models.py`, which
is not under `src/`.  Per the spec, an AuthorizationDecision is parsed
from the auth server's JSON response body and its fields are treated
opaquely (the client never branches on them). -/
structure AuthResponse where
  fields : List (String × Json)


/-- Modelled from the spec: constructing `AuthResponse(**response.json())`
succeeds exactly when the decoded body is a JSON object (a mapping whose
entries become the model's opaque fields); on any other JSON shape the
construction raises an error that is not a `requests.RequestException`. -/
def AuthResponse.parse : Json → Option AuthResponse
  | Json.obj fields => some ⟨fields⟩
  | _ => none

/-- The Python exception that a client operation can raise.
`unauthorizedError` and `missingEntitlementsError` model the two classes
from `src/exceptions.py` (not under `src/`; modelled from the spec as
distinct exception types).  `authModelError` models the uncaught
`TypeError`/`ValidationError` raised by `AuthResponse(**...)` on a body
that is not an object.  `genericError` models the bare
`Exception(f"...: {e}")` that both `except requests.RequestException`
blocks raise; it carries only the formatted message string. -/
inductive ClientError where
  | unauthorizedError (msg : String) : ClientError
  | missingEntitlementsError (msg : String) : ClientError
  | authModelError : ClientError
  | genericError (msg : String) : ClientError


/-- Whether two raised errors have the same Python exception type
(callers distinguish failure categories by exception class, not by
message text). -/
def ClientError.sameKind : ClientError → ClientError → Bool
  | .unauthorizedError _, .unauthorizedError _ => true
  | .missingEntitlementsError _, .missingEntitlementsError _ => true
  | .authModelError, .authModelError => true
  | .genericError _, .genericError _ => true
  | _, _ => false

/-- An HTTP response as seen by the client: the status code and the
result of decoding the body as JSON (`none` models a body on which
`response.json()` raises `JSONDecodeError`, a `RequestException`). -/
structure HttpResponse where
  status_code : Nat
  body : Option Json


/-- The environment's behaviour at one `requests.post` call: either a
transport-level `requests.RequestException` (connection refused, timeout,
DNS failure, ...) carrying its string rendering, or an HTTP response. -/
inductive PostResult where
  | fault (cause : String) : PostResult
  | resp (r : HttpResponse) : PostResult


/-- An outbound POST request as built by the client. -/
structure HttpRequest where
  url : String
  jsonBody : Json
  headers : List (String × String)


/-- The client configuration captured at construction
(`UniversalSQLClient.__init__` only stores these three fields). -/
structure UniversalSQLClient where
  api_key : String
  auth_url : String
  sql_server_url : String


/-- Model of `str(e)` for the `requests.exceptions.JSONDecodeError`
raised by `response.json()` on a non-JSON body. -/
def jsonDecodeErrorStr : String := "Expecting value: line 1 column 1 (char 0)"

/-- Model of `str(e)` for the `requests.exceptions.HTTPError` raised by
`response.raise_for_status()` on a 4xx/5xx status: the message renders
the status code and the request URL (the attached response object is
lost when the message is formatted into a bare `Exception`). -/
def httpErrorStr (status : Nat) (url : String) : String :=
  toString status ++
    (if status < 500 then " Client Error: error for url: "
     else " Server Error: error for url: ") ++ url

/-- The request `_pre_validate` sends:
`requests.post(f"{self.auth_url}/validate-query/", json=query.dict(),
headers={"Authorization": f"Bearer {self.api_key}"})`. -/
def validateRequest (c : UniversalSQLClient) (q : SQLQuery) : HttpRequest :=
  { url := c.auth_url ++ "/validate-query/"
    jsonBody := Json.obj q.dict
    headers := [("Authorization", "Bearer " ++ c.api_key)] }

/-- Result of `_pre_validate`: the single request it issued, its outcome
(a parsed `AuthResponse` or a raised exception), and the client state
after the call. -/
structure ValidateResult where
  request : HttpRequest
  outcome : Except ClientError AuthResponse
  client : UniversalSQLClient


/-- Embedding of `UniversalSQLClient._pre_validate`.  `post` is the
environment's behaviour at the one `requests.post` call.  A transport
fault is caught by `except requests.RequestException` and re-raised as a
bare `Exception("Failed to call local auth server: ...")`; status 401
raises `UnauthorizedError`, 403 raises `MissingEntitlementsError`
(neither is a `RequestException`, so they escape the `except` clause);
any other status reaches `AuthResponse(**response.json())`: a non-JSON
body raises `JSONDecodeError` (a `RequestException`, hence wrapped the
same way), a JSON body that is not an object raises an uncaught model
error, and an object body is returned as the `AuthResponse`. -/
def pre_validate (c : UniversalSQLClient) (q : SQLQuery) (post : PostResult) :
    ValidateResult :=
  let request := validateRequest c q
  match post with
  | .fault cause =>
      { request
        outcome := .error (.genericError
          ("Failed to call local auth server: " ++ cause))
        client := c }
  | .resp r =>
      if r.status_code = 401 then
        { request
          outcome := .error (.unauthorizedError
            "Unauthorized access - check API key or permissions")
          client := c }
      else if r.status_code = 403 then
        { request
          outcome := .error (.missingEntitlementsError
            "Missing entitlements - no permission for fields/datasets")
          client := c }
      else
        match r.body with
        | none =>
            { request
              outcome := .error (.genericError
                ("Failed to call local auth server: " ++ jsonDecodeErrorStr))
              client := c }
        | some j =>
            match AuthResponse.parse j with
            | some auth_response => { request, outcome := .ok auth_response, client := c }
            | none => { request, outcome := .error .authModelError, client := c }

/-- Embedding of `UniversalSQLClient._serialize_query`: returns
`query.dict()`. -/
def serialize_query (_c : UniversalSQLClient) (q : SQLQuery) :
    List (String × Json) :=
  q.dict

/-- What `execute_query` produces: a normal return value, Python's
implicit `None` (control falling off the end of the function), or a
raised exception. -/
inductive ExecOutcome where
  | ok (result : Json) : ExecOutcome
  | noneResult : ExecOutcome
  | err (e : ClientError) : ExecOutcome


/-- Result of `execute_query`: the ordered trace of requests it issued,
its outcome, and the client state after the call. -/
structure ExecResult where
  trace : List HttpRequest
  outcome : ExecOutcome
  client : UniversalSQLClient


/-- The request step 3 of `execute_query` sends:
`requests.post(f"{self.sql_server_url}/execute-query/",
json=serialized_query, headers=sql_headers)`. -/
def executeRequest (c : UniversalSQLClient) (q : SQLQuery) : HttpRequest :=
  { url := c.sql_server_url ++ "/execute-query/"
    jsonBody := Json.obj (serialize_query c q)
    headers := [("Authorization", "Bearer " ++ c.api_key)] }

/-- Embedding of `UniversalSQLClient.execute_query`.  `authPost` and
`sqlPost` are the environment's behaviours at the validation and
execution `requests.post` calls respectively.  Step 1 calls
`_pre_validate`; any exception it raises propagates unchanged (the
`try` block only surrounds step 3) and the execution request is never
issued.  Step 2 re-serializes the query.  Step 3 posts to the SQL
server: status 200 returns `response.json()` (a non-JSON body raises
`JSONDecodeError`, caught and wrapped); any other status calls
`response.raise_for_status()`, which raises `HTTPError` only for
400–599 (caught by the same `except requests.RequestException` and
wrapped into the same bare `Exception` as transport faults); for the
remaining statuses control falls off the end and returns `None`. -/
def execute_query (c : UniversalSQLClient) (q : SQLQuery)
    (authPost sqlPost : PostResult) : ExecResult :=
  let v := pre_validate c q authPost
  match v.outcome with
  | .error e => { trace := [v.request], outcome := .err e, client := c }
  | .ok _ =>
      let sqlReq := executeRequest c q
      match sqlPost with
      | .fault cause =>
          { trace := [v.request, sqlReq]
            outcome := .err (.genericError
              ("Failed to execute query: " ++ cause))
            client := c }
      | .resp r =>
          if r.status_code = 200 then
            match r.body with
            | some j =>
                { trace := [v.request, sqlReq], outcome := .ok j, client := c }
            | none =>
                { trace := [v.request, sqlReq]
                  outcome := .err (.genericError
                    ("Failed to execute query: " ++ jsonDecodeErrorStr))
                  client := c }
          else if 400 ≤ r.status_code ∧ r.status_code < 600 then
            { trace := [v.request, sqlReq]
              outcome := .err (.genericError
                ("Failed to execute query: " ++
                  httpErrorStr r.status_code (c.sql_server_url ++ "/execute-query/")))
              client := c }
          else
            { trace := [v.request, sqlReq], outcome := .noneResult, client := c }

end UniversalApiSqlSdk

namespace UniversalApiSqlSdk

/-- Every branch of `_pre_validate` issued the same single request. -/
theorem pre_validate_request (c : UniversalSQLClient) (q : SQLQuery)
    (p : PostResult) : (pre_validate c q p).request = validateRequest c q := by
  cases p with
  | fault cause => rfl
  | resp r =>
      obtain ⟨s, b⟩ := r
      simp only [pre_validate]
      split
      · rfl
      · split
        · rfl
        · cases b with
          | none => rfl
          | some j => cases j <;> rfl

/-- `_pre_validate` never assigns any attribute of `self`. -/
theorem pre_validate_client (c : UniversalSQLClient) (q : SQLQuery)
    (p : PostResult) : (pre_validate c q p).client = c := by
  cases p with
  | fault cause => rfl
  | resp r =>
      obtain ⟨s, b⟩ := r
      simp only [pre_validate]
      split
      · rfl
      · split
        · rfl
        · cases b with
          | none => rfl
          | some j => cases j <;> rfl

/-- `execute_query` issues either just the validation request, or the
validation request followed by the execution request. -/
theorem execute_query_trace (c : UniversalSQLClient) (q : SQLQuery)
    (authPost sqlPost : PostResult) :
    (execute_query c q authPost sqlPost).trace = [validateRequest c q] ∨
    (execute_query c q authPost sqlPost).trace
      = [validateRequest c q, executeRequest c q] := by
  simp only [execute_query]
  cases ho : (pre_validate c q authPost).outcome with
  | error e => left; simp [pre_validate_request]
  | ok v =>
      right
      cases sqlPost with
      | fault cause => simp [pre_validate_request]
      | resp r =>
          obtain ⟨s, b⟩ := r
          simp only []
          split
          · cases b <;> simp [pre_validate_request]
          · split <;> simp [pre_validate_request]

end UniversalApiSqlSdk

namespace UniversalApiSqlSdk

/-- A concrete client configuration used to instantiate the theorems. -/
def c0 : UniversalSQLClient :=
  { api_key := "key", auth_url := "http://auth.local", sql_server_url := "http://sql.local" }

/-- A concrete query. -/
def q0 : SQLQuery := ⟨[("sql", Json.str "SELECT a FROM t")]⟩

/-- A concrete auth-server body representing an approval. -/
def approvedBody : Json := Json.obj [("approved", Json.bool true)]

/-- A concrete auth-server body representing a denial. -/
def deniedBody : Json := Json.obj [("approved", Json.bool false)]

/-- A concrete successful validation response. -/
def okResp : HttpResponse := ⟨200, some approvedBody⟩

/-- A concrete SQL-server error body. -/
def errBody : Json := Json.obj [("error", Json.str "syntax")]

/-- A concrete SQL-server result body. -/
def rowsBody : Json := Json.obj [("rows", Json.arr [Json.num 1, Json.num 2])]

/-- C1: if the validation step of `execute_query` fails with any error,
that error is propagated to the caller unchanged and no request is ever
issued to the SQL Execution Service: the trace is exactly the single
validation request, whatever the execution endpoint would have
answered. -/
theorem execute_query_validation_failure_propagates
    (c : UniversalSQLClient) (q : SQLQuery) (authPost sqlPost : PostResult)
    (e : ClientError)
    (h : (pre_validate c q authPost).outcome = .error e) :
    (execute_query c q authPost sqlPost).outcome = .err e ∧
    (execute_query c q authPost sqlPost).trace = [validateRequest c q] ∧
    ∀ req ∈ (execute_query c q authPost sqlPost).trace,
      req.url = c.auth_url ++ "/validate-query/" := by
  refine ⟨?_, ?_, ?_⟩ <;>
    simp [execute_query, h, pre_validate_request, validateRequest]

/-- Witness for C1 at a concrete 401 denial: the error propagates and
the execution endpoint receives zero requests. -/
theorem execute_query_validation_failure_propagates_witness :
    (execute_query c0 q0 (.resp ⟨401, some approvedBody⟩) (.resp okResp)).outcome
      = .err (.unauthorizedError "Unauthorized access - check API key or permissions") ∧
    (execute_query c0 q0 (.resp ⟨401, some approvedBody⟩) (.resp okResp)).trace
      = [validateRequest c0 q0] ∧
    ∀ req ∈ (execute_query c0 q0 (.resp ⟨401, some approvedBody⟩) (.resp okResp)).trace,
      req.url = c0.auth_url ++ "/validate-query/" :=
  execute_query_validation_failure_propagates c0 q0
    (.resp ⟨401, some approvedBody⟩) (.resp okResp)
    (.unauthorizedError "Unauthorized access - check API key or permissions") rfl

/-- C2: a 401 from the Authorization Service makes `execute_query` raise
`UnauthorizedError`, and a 403 makes it raise
`MissingEntitlementsError`. -/
theorem execute_query_401_unauthorized_403_missing_entitlements
    (c : UniversalSQLClient) (q : SQLQuery) (sqlPost : PostResult)
    (r : HttpResponse) :
    (r.status_code = 401 →
      (execute_query c q (.resp r) sqlPost).outcome
        = .err (.unauthorizedError
            "Unauthorized access - check API key or permissions")) ∧
    (r.status_code = 403 →
      (execute_query c q (.resp r) sqlPost).outcome
        = .err (.missingEntitlementsError
            "Missing entitlements - no permission for fields/datasets")) := by
  constructor <;> intro h <;> simp [execute_query, pre_validate, h]

/-- Witness for C2 at concrete 401 and 403 responses. -/
theorem execute_query_401_unauthorized_403_missing_entitlements_witness :
    (execute_query c0 q0 (.resp ⟨401, some approvedBody⟩) (.resp okResp)).outcome
      = .err (.unauthorizedError "Unauthorized access - check API key or permissions") ∧
    (execute_query c0 q0 (.resp ⟨403, some approvedBody⟩) (.resp okResp)).outcome
      = .err (.missingEntitlementsError "Missing entitlements - no permission for fields/datasets") :=
  ⟨(execute_query_401_unauthorized_403_missing_entitlements c0 q0
      (.resp okResp) ⟨401, some approvedBody⟩).1 rfl,
   (execute_query_401_unauthorized_403_missing_entitlements c0 q0
      (.resp okResp) ⟨403, some approvedBody⟩).2 rfl⟩

/-- C6: when validation succeeds and the SQL Execution Service answers
200 with a parseable JSON body, `execute_query` returns exactly that
body. -/
theorem execute_query_200_round_trip
    (c : UniversalSQLClient) (q : SQLQuery) (authPost : PostResult)
    (a : AuthResponse) (hok : (pre_validate c q authPost).outcome = .ok a)
    (j : Json) :
    (execute_query c q authPost (.resp ⟨200, some j⟩)).outcome = .ok j := by
  simp [execute_query, hok]

/-- Witness for C6: a concrete rows body comes back unchanged. -/
theorem execute_query_200_round_trip_witness :
    (execute_query c0 q0 (.resp okResp) (.resp ⟨200, some rowsBody⟩)).outcome
      = .ok rowsBody :=
  execute_query_200_round_trip c0 q0 (.resp okResp)
    ⟨[("approved", Json.bool true)]⟩ rfl rowsBody

end UniversalApiSqlSdk

namespace UniversalApiSqlSdk

/-- C7: `execute_query` never inspects the parsed AuthorizationDecision.
For any two validation responses that both succeed — whatever decision
fields they carry — the whole result of `execute_query` (trace, outcome
and final state) is identical; absence of a validation error alone
authorizes execution. -/
theorem execute_query_ignores_decision_content
    (c : UniversalSQLClient) (q : SQLQuery) (p1 p2 sqlPost : PostResult)
    (a1 a2 : AuthResponse)
    (h1 : (pre_validate c q p1).outcome = .ok a1)
    (h2 : (pre_validate c q p2).outcome = .ok a2) :
    execute_query c q p1 sqlPost = execute_query c q p2 sqlPost := by
  simp only [execute_query, h1, h2, pre_validate_request]

/-- Witness for C7: an approval body and a denial body with extra fields,
arriving with different success statuses, lead to identical executions. -/
theorem execute_query_ignores_decision_content_witness :
    execute_query c0 q0 (.resp okResp) (.resp ⟨200, some rowsBody⟩)
      = execute_query c0 q0
          (.resp ⟨202, some (Json.obj [("approved", Json.bool false), ("note", Json.str "x")])⟩)
          (.resp ⟨200, some rowsBody⟩) :=
  execute_query_ignores_decision_content c0 q0 (.resp okResp)
    (.resp ⟨202, some (Json.obj [("approved", Json.bool false), ("note", Json.str "x")])⟩)
    (.resp ⟨200, some rowsBody⟩)
    ⟨[("approved", Json.bool true)]⟩
    ⟨[("approved", Json.bool false), ("note", Json.str "x")]⟩ rfl rfl

/-- C8: whenever `execute_query` issues both requests, the serialized
body sent to the SQL Execution Service is structurally identical to the
body sent to the Authorization Service, although step 2 re-derives it
through `_serialize_query`. -/
theorem execute_query_request_bodies_identical
    (c : UniversalSQLClient) (q : SQLQuery) (authPost sqlPost : PostResult)
    (r1 r2 : HttpRequest)
    (h : (execute_query c q authPost sqlPost).trace = [r1, r2]) :
    r1.jsonBody = r2.jsonBody := by
  rcases execute_query_trace c q authPost sqlPost with ht | ht <;> rw [ht] at h
  · simp at h
  · obtain ⟨h1, h2⟩ : validateRequest c q = r1 ∧ executeRequest c q = r2 := by
      simpa using h
    rw [← h1, ← h2]
    rfl

/-- Witness for C8 on a concrete run that reaches the execution step. -/
theorem execute_query_request_bodies_identical_witness :
    (validateRequest c0 q0).jsonBody = (executeRequest c0 q0).jsonBody :=
  execute_query_request_bodies_identical c0 q0 (.resp okResp)
    (.resp ⟨200, some rowsBody⟩) (validateRequest c0 q0) (executeRequest c0 q0) rfl

/-- C9: on every exit path of both operations, the client configuration
(`api_key`, `auth_url`, `sql_server_url`) is unchanged: the state after
the call is the state before it. -/
theorem client_state_unchanged
    (c : UniversalSQLClient) (q : SQLQuery) (authPost sqlPost : PostResult) :
    (pre_validate c q authPost).client = c ∧
    (execute_query c q authPost sqlPost).client = c := by
  refine ⟨pre_validate_client c q authPost, ?_⟩
  simp only [execute_query]
  cases ho : (pre_validate c q authPost).outcome with
  | error e => simp
  | ok v =>
      cases sqlPost with
      | fault cause => simp
      | resp r =>
          obtain ⟨s, b⟩ := r
          simp only []
          split
          · cases b <;> simp
          · split <;> simp

/-- C10: when validation succeeds and the SQL Execution Service answers
with a status other than 200 that is also outside 400–599 (for example
204 or a 3xx), `raise_for_status` does not raise, control falls off the
end of `execute_query`, and the call returns Python `None` — neither a
result body nor an error. -/
theorem execute_query_success_range_non_200_returns_none
    (c : UniversalSQLClient) (q : SQLQuery) (authPost : PostResult)
    (a : AuthResponse) (hok : (pre_validate c q authPost).outcome = .ok a)
    (r : HttpResponse) (h200 : r.status_code ≠ 200)
    (hraise : ¬(400 ≤ r.status_code ∧ r.status_code < 600)) :
    (execute_query c q authPost (.resp r)).outcome = .noneResult := by
  simp [execute_query, hok, h200, hraise]

/-- Witness for C10 at a concrete 204 No Content response. -/
theorem execute_query_success_range_non_200_returns_none_witness :
    (execute_query c0 q0 (.resp okResp) (.resp ⟨204, some rowsBody⟩)).outcome
      = .noneResult :=
  execute_query_success_range_non_200_returns_none c0 q0 (.resp okResp)
    ⟨[("approved", Json.bool true)]⟩ rfl ⟨204, some rowsBody⟩
    (by decide) (by decide)

end UniversalApiSqlSdk

namespace UniversalApiSqlSdk

/-- Whether an `execute_query` outcome is a raised exception. -/
def ExecOutcome.isFailure : ExecOutcome → Bool
  | .err _ => true
  | _ => false

/-- Counterexample to C3: validation succeeds and the SQL Execution
Service answers 204 (a status other than 200), yet `execute_query` does
not fail with anything — it returns Python `None`. -/
theorem execute_query_204_no_failure :
    (execute_query c0 q0 (.resp okResp) (.resp ⟨204, some Json.null⟩)).outcome
      = .noneResult ∧
    ExecOutcome.isFailure
      (execute_query c0 q0 (.resp okResp) (.resp ⟨204, some Json.null⟩)).outcome
      = false :=
  ⟨rfl, rfl⟩

/-- C3 as amended: after a successful validation, a non-200 execution
status in 400–599 makes `execute_query` raise the bare generic
`Exception` wrapping the `HTTPError` string (which renders the status
code and URL; there is no dedicated ExecutionError type and the response
body is not carried), while a non-200 status outside 400–599 makes it
return `None` without any error. -/
theorem execute_query_non_200_generic_or_none
    (c : UniversalSQLClient) (q : SQLQuery) (authPost : PostResult)
    (a : AuthResponse) (hok : (pre_validate c q authPost).outcome = .ok a)
    (r : HttpResponse) (h200 : r.status_code ≠ 200) :
    (execute_query c q authPost (.resp r)).outcome =
      if 400 ≤ r.status_code ∧ r.status_code < 600 then
        ExecOutcome.err (ClientError.genericError
          ("Failed to execute query: " ++
            httpErrorStr r.status_code (c.sql_server_url ++ "/execute-query/")))
      else ExecOutcome.noneResult := by
  by_cases hc : 400 ≤ r.status_code ∧ r.status_code < 600 <;>
    simp [execute_query, hok, h200, hc]

/-- Witness for the amended C3 at the spec's own example: execution
answering 500 with body `{"error": "syntax"}` raises the generic wrapped
exception whose message renders status 500. -/
theorem execute_query_non_200_generic_or_none_witness :
    (execute_query c0 q0 (.resp okResp) (.resp ⟨500, some errBody⟩)).outcome =
      ExecOutcome.err (ClientError.genericError
        ("Failed to execute query: " ++
          httpErrorStr 500 (c0.sql_server_url ++ "/execute-query/"))) := by
  have h := execute_query_non_200_generic_or_none c0 q0 (.resp okResp)
    ⟨[("approved", Json.bool true)]⟩ rfl ⟨500, some errBody⟩ (by decide)
  rw [h]
  rfl

/-- Counterexample to C4: a run where the SQL Execution Service
explicitly rejected the query (status 500) and a run where the network
failed (connection refused) raise errors of the same kind — both are the
bare generic `Exception`; the two categories are conflated. -/
theorem execution_rejection_conflated_with_transport_fault :
    (execute_query c0 q0 (.resp okResp) (.resp ⟨500, some errBody⟩)).outcome
      = .err (.genericError
          "Failed to execute query: 500 Server Error: error for url: http://sql.local/execute-query/") ∧
    (execute_query c0 q0 (.resp okResp) (.fault "Connection refused")).outcome
      = .err (.genericError "Failed to execute query: Connection refused") ∧
    ClientError.sameKind
      (.genericError
        "Failed to execute query: 500 Server Error: error for url: http://sql.local/execute-query/")
      (.genericError "Failed to execute query: Connection refused") = true :=
  ⟨rfl, rfl, rfl⟩

/-- C4 as amended: `UnauthorizedError` (401) and
`MissingEntitlementsError` (403) are distinct exception types,
distinguishable from each other and from the generic wrapped
`Exception`; but an execution-service rejection (any 4xx/5xx status)
and a network-level transport fault both surface as that same generic
`Exception` kind — those two categories are conflated, distinguishable
at best by message text. -/
theorem rejection_vs_transport_error_kinds
    (c : UniversalSQLClient) (q : SQLQuery) (authPost : PostResult)
    (a : AuthResponse) (hok : (pre_validate c q authPost).outcome = .ok a)
    (s : Nat) (b : Option Json) (hs : 400 ≤ s ∧ s < 600)
    (cause um mm gm : String) :
    (execute_query c q authPost (.resp ⟨s, b⟩)).outcome
      = .err (.genericError ("Failed to execute query: " ++
          httpErrorStr s (c.sql_server_url ++ "/execute-query/"))) ∧
    (execute_query c q authPost (.fault cause)).outcome
      = .err (.genericError ("Failed to execute query: " ++ cause)) ∧
    ClientError.sameKind
      (.genericError ("Failed to execute query: " ++
        httpErrorStr s (c.sql_server_url ++ "/execute-query/")))
      (.genericError ("Failed to execute query: " ++ cause)) = true ∧
    ClientError.sameKind (.unauthorizedError um) (.missingEntitlementsError mm) = false ∧
    ClientError.sameKind (.unauthorizedError um) (.genericError gm) = false ∧
    ClientError.sameKind (.missingEntitlementsError mm) (.genericError gm) = false := by
  have h200 : s ≠ 200 := by omega
  refine ⟨?_, ?_, rfl, rfl, rfl, rfl⟩
  · simp [execute_query, hok, h200, hs.1, hs.2]
  · simp [execute_query, hok]

/-- Witness for the amended C4 at concrete inputs. -/
theorem rejection_vs_transport_error_kinds_witness :
    (execute_query c0 q0 (.resp okResp) (.resp ⟨500, some errBody⟩)).outcome
      = .err (.genericError ("Failed to execute query: " ++
          httpErrorStr 500 (c0.sql_server_url ++ "/execute-query/"))) ∧
    (execute_query c0 q0 (.resp okResp) (.fault "Connection refused")).outcome
      = .err (.genericError ("Failed to execute query: " ++ "Connection refused")) ∧
    ClientError.sameKind
      (.genericError ("Failed to execute query: " ++
        httpErrorStr 500 (c0.sql_server_url ++ "/execute-query/")))
      (.genericError ("Failed to execute query: " ++ "Connection refused")) = true ∧
    ClientError.sameKind (.unauthorizedError "u") (.missingEntitlementsError "m") = false ∧
    ClientError.sameKind (.unauthorizedError "u") (.genericError "g") = false ∧
    ClientError.sameKind (.missingEntitlementsError "m") (.genericError "g") = false :=
  rejection_vs_transport_error_kinds c0 q0 (.resp okResp)
    ⟨[("approved", Json.bool true)]⟩ rfl 500 (some errBody)
    (by decide) "Connection refused" "u" "m" "g"

/-- Counterexample to C5: the Authorization Service answers 500 — a
non-success status other than 401/403 — with an explicit denial body,
yet `_pre_validate` does not fail with any AuthServiceError: it returns
that body as the AuthorizationDecision, and `execute_query` then
proceeds to contact the SQL Execution Service. -/
theorem pre_validate_500_returns_decision :
    (pre_validate c0 q0 (.resp ⟨500, some deniedBody⟩)).outcome
      = .ok ⟨[("approved", Json.bool false)]⟩ ∧
    (execute_query c0 q0 (.resp ⟨500, some deniedBody⟩)
        (.resp ⟨200, some rowsBody⟩)).trace
      = [validateRequest c0 q0, executeRequest c0 q0] :=
  ⟨rfl, rfl⟩

/-- C5 as amended: for any validation response whose status is neither
401 nor 403 — success or not, 500 included — `_pre_validate` ignores the
status entirely: a JSON-object body is returned as the
AuthorizationDecision; a non-JSON body raises the generic wrapped
exception; a JSON body that is not an object raises an uncaught
model-construction error.  No AuthServiceError kind exists, and no
error carries the status. -/
theorem pre_validate_status_blind_outside_401_403
    (c : UniversalSQLClient) (q : SQLQuery) (r : HttpResponse)
    (h1 : r.status_code ≠ 401) (h2 : r.status_code ≠ 403) :
    (pre_validate c q (.resp r)).outcome =
      match r.body with
      | none => .error (.genericError
          ("Failed to call local auth server: " ++ jsonDecodeErrorStr))
      | some j =>
          match AuthResponse.parse j with
          | some a => .ok a
          | none => .error .authModelError := by
  obtain ⟨s, b⟩ := r
  cases b with
  | none => simp [pre_validate, h1, h2]
  | some j => cases j <;> simp [pre_validate, AuthResponse.parse, h1, h2]

/-- Witness for the amended C5: a 500 response with an object body is
returned as the decision. -/
theorem pre_validate_status_blind_outside_401_403_witness :
    (pre_validate c0 q0 (.resp ⟨500, some deniedBody⟩)).outcome
      = .ok ⟨[("approved", Json.bool false)]⟩ :=
  (pre_validate_status_blind_outside_401_403 c0 q0 ⟨500, some deniedBody⟩
    (by decide) (by decide)).trans rfl

end UniversalApiSqlSdk
